import Mathlib

/-!
Verification of the Azure DevOps RTM (Requirements Traceability Matrix)
generator.  The development shallowly embeds the RTM computation engine of
`azure-devops-rtm.js` (the `AzureDevOpsRTMGenerator` class together with the
`parallel` concurrency helper) and the KPI statistics of the `/rtm-download`
route of `server.js`.

Modelling conventions:
* JavaScript dynamic values that matter here (work-item priority and the
  acceptance-criterion reference field) are modelled by the inductive `JSVal`
  (number, string, null, undefined), with JS truthiness (`jsFalsy`) and JS
  string coercion (`jsToString`).
* JS string operations (`toLowerCase`, `trim`, `includes`, `split`,
  `parseInt`) are embedded as executable functions over `String.data`
  (`jsToLowerCase`, `jsTrim`, `jsIncludes`, `jsSplitChar`, `parseIntNat`);
  they implement the ASCII behaviour the inputs exercise.
* The HTTP backend is a function `Backend : Nat → Except ApiError WorkItem`;
  `makeApiRequest` catches every failure and yields `none`, exactly as the
  source's try/catch returns `null` for both transport errors and 404s.
* Cheerio HTML parsing of the acceptance-criteria field is abstracted to the
  list of `<li>` element texts in document order
  (`WorkItem.acceptanceCriteriaHtml`); `parseAcceptanceCriterias` performs the
  trimming, filtering and 1-based numbering that the source does on them.
* The ES2015 `Map` built by `generateRTM` is an insertion-ordered association
  list with `SameValueZero` keys (`jsMapSet` / `jsMapGet`); `Object.entries`
  over an object whose keys are array indices is `jsIntKeyEntries`, which
  yields the entries in ascending numeric key order as JS mandates.
* `generateRTM` itself is modelled on the canonical schedule of the worker
  pool (stories processed in list order); the multiset of rows produced is
  schedule independent because each story is pulled from the shared iterator
  exactly once and all of its rows are pushed by a single worker.  The
  `parallel` helper itself is modelled separately, and for every schedule, by
  the labelled transition system `PStep`.
-/

/-- A JavaScript value, restricted to the shapes that flow through the RTM
engine: numbers, strings, `null` and `undefined`. -/
inductive JSVal : Type
  | num (n : Int)
  | str (s : String)
  | null
  | undef
deriving DecidableEq, Repr

/-- JS falsiness for `JSVal` (`0`, the empty string, `null` and `undefined`
are falsy; `NaN` is not modelled). -/
def jsFalsy : JSVal → Bool
  | JSVal.num n => n == 0
  | JSVal.str s => s == ""
  | JSVal.null => true
  | JSVal.undef => true

/-- The JS `a || b` idiom on dynamic values: `b` when `a` is falsy. -/
def jsOr (v fallback : JSVal) : JSVal := if jsFalsy v then fallback else v

/-- JS `toString()` coercion on a `JSVal`.  The source only calls it after
guarding against `null`/`undefined`; the values for those tags are the JS
string forms, for completeness. -/
def jsToString : JSVal → String
  | JSVal.num n => toString n
  | JSVal.str s => s
  | JSVal.null => "null"
  | JSVal.undef => "undefined"

/-- ASCII lower-casing of one character, as JS `toLowerCase` acts on the
ASCII range exercised by the classifier keywords and priority names. -/
def charToLower (c : Char) : Char :=
  if 65 ≤ c.toNat && c.toNat ≤ 90 then Char.ofNat (c.toNat + 32) else c

/-- JS `String.prototype.toLowerCase` (ASCII fragment). -/
def jsToLowerCase (s : String) : String := ⟨s.data.map charToLower⟩

/-- The whitespace characters relevant to JS `trim` on the inputs here. -/
def isJsSpace (c : Char) : Bool := c == ' ' || c == '\t' || c == '\n' || c == '\r'

/-- JS `String.prototype.trim`. -/
def jsTrim (s : String) : String :=
  ⟨((s.data.dropWhile isJsSpace).reverse.dropWhile isJsSpace).reverse⟩

/-- Does the character list start with the given pattern? -/
def strStartsWith : List Char → List Char → Bool
  | _, [] => true
  | [], _ :: _ => false
  | c :: cs, p :: ps => c == p && strStartsWith cs ps

/-- Does the character list contain the given pattern as a contiguous run? -/
def strContains : List Char → List Char → Bool
  | [], pat => strStartsWith [] pat
  | c :: cs, pat => strStartsWith (c :: cs) pat || strContains cs pat

/-- JS `String.prototype.includes`. -/
def jsIncludes (s pat : String) : Bool := strContains s.data pat.data

/-- Accumulator loop for `jsSplitChar`. -/
def splitCharAux (sep : Char) : List Char → List Char → List String
  | [], cur => [⟨cur.reverse⟩]
  | c :: cs, cur =>
    if c == sep then (⟨cur.reverse⟩ : String) :: splitCharAux sep cs []
    else splitCharAux sep cs (c :: cur)

/-- JS `String.prototype.split` with a one-character separator (the source
splits on `'/'` and on a backslash). -/
def jsSplitChar (s : String) (sep : Char) : List String := splitCharAux sep s.data []

/-- Decimal digit test by code point. -/
def isDigitChar (c : Char) : Bool := 48 ≤ c.toNat && c.toNat ≤ 57

/-- JS `parseInt` on the nonnegative decimal strings that appear as the last
segment of a work-item URL: the leading digit run, `none` for `NaN`. -/
def parseIntNat (s : String) : Option Nat :=
  let ds := s.data.takeWhile isDigitChar
  if ds.isEmpty then none
  else some (ds.foldl (fun n c => n * 10 + (c.toNat - 48)) 0)

/-- How a single backend request can fail: transport trouble, rejected
credentials, or an identifier that does not resolve. -/
inductive ApiError : Type
  | transport
  | auth
  | notFound
deriving DecidableEq, Repr

/-- One entry of a work item's `relations` array. -/
structure Relation where
  rel : String
  url : String
deriving DecidableEq, Repr

/-- A raw Azure DevOps work item as decoded from the REST response.  String
fields use `""` for an absent field (the source coalesces them with
`|| ''`); the dynamically typed priority and acceptance-criterion-number
fields are `JSVal` with `JSVal.undef` for an absent field. -/
structure WorkItem where
  id : Nat
  workItemType : String
  title : String
  description : String
  state : String
  priority : JSVal
  areaPath : String
  tags : String
  acceptanceCriteriaHtml : List String
  acNumberField : JSVal
  scenarioTypeField : String
  steps : String
  relations : List Relation
deriving DecidableEq, Repr

/-- The work-item tracking backend: each identifier either yields a work
item or fails. -/
abbrev Backend : Type := Nat → Except ApiError WorkItem

/-- `makeApiRequest`: the source wraps the axios call in try/catch and
returns `null` on ANY error — transport, auth and not-found alike. -/
def makeApiRequest (b : Backend) (id : Nat) : Option WorkItem :=
  match b id with
  | Except.ok w => some w
  | Except.error _ => none

/-- `parseAcceptanceCriterias`: cheerio collects every `<li>` of the HTML
field in document order; each text is trimmed, empty texts are dropped, and
a kept text is stored under key `liIndex + 1`. -/
def parseAcceptanceCriterias (liTexts : List String) : List (Nat × String) :=
  liTexts.enum.foldl
    (fun criteria p =>
      criteria ++ (if jsTrim p.2 = "" then [] else [(p.1 + 1, jsTrim p.2)]))
    []

/-- The feature computed from the area path in `fetchUserStory`:
`areaPath ? areaPath.split('\\').pop() : ''`. -/
def areaFeature (areaPath : String) : String :=
  if areaPath = "" then "" else (jsSplitChar areaPath '\\').getLastD ""

/-- A fetched user story (`fetchUserStory`'s result object). -/
structure UserStory where
  id : Nat
  title : String
  description : String
  state : String
  priority : JSVal
  feature : String
  tags : String
  acceptanceCriteria : List (Nat × String)
deriving DecidableEq, Repr

/-- `fetchUserStory`: request the work item, reject wrong work-item types,
and build the user story record.  Note that the source computes the
area-path feature but then writes `feature: fields['System.Title'] || feature`,
so the title wins whenever it is non-empty. -/
def fetchUserStory (b : Backend) (userStoryId : Nat) : Option UserStory :=
  match makeApiRequest b userStoryId with
  | none => none
  | some w =>
    if w.workItemType ≠ "User Story" then none
    else
      some
        { id := w.id
          title := w.title
          description := w.description
          state := w.state
          priority := jsOr w.priority (JSVal.str "Medium")
          feature := if w.title = "" then areaFeature w.areaPath else w.title
          tags := w.tags
          acceptanceCriteria := parseAcceptanceCriterias w.acceptanceCriteriaHtml }

/-- A fetched test case (`fetchTestCase`'s result object). -/
structure TestCase where
  id : Nat
  title : String
  description : String
  state : String
  priority : JSVal
  executionStatus : String
  steps : String
  acceptanceCriteria : JSVal
  scenarioType : String
deriving DecidableEq, Repr

/-- `fetchTestCase`: request the work item, reject non-test-case types, and
build the record; the execution outcome is `Pass` exactly when the lifecycle
state is `Done` or `Completed`. -/
def fetchTestCase (b : Backend) (testCaseId : Nat) : Option TestCase :=
  match makeApiRequest b testCaseId with
  | none => none
  | some w =>
    if w.workItemType ≠ "Test Case" then none
    else
      some
        { id := w.id
          title := w.title
          description := w.description
          state := w.state
          priority := jsOr w.priority (JSVal.str "Medium")
          executionStatus := if ["Done", "Completed"].contains w.state then "Pass" else "Fail"
          steps := w.steps
          acceptanceCriteria := jsOr w.acNumberField (JSVal.str "")
          scenarioType := w.scenarioTypeField }

/-- `fetchRelatedTestCases`: walk the story's relations, keep the ones whose
kind is `Microsoft.VSTS.Common.TestedBy` or whose lower-cased kind contains
"test", resolve the trailing URL segment to an id and fetch it; every
per-item failure is skipped. -/
def fetchRelatedTestCases (b : Backend) (userStoryId : Nat) : List TestCase :=
  match makeApiRequest b userStoryId with
  | none => []
  | some w =>
    w.relations.foldl
      (fun testCases relation =>
        if relation.rel == "Microsoft.VSTS.Common.TestedBy"
            || jsIncludes (jsToLowerCase relation.rel) "test" then
          if relation.url == "" then testCases
          else
            match parseIntNat ((jsSplitChar relation.url '/').getLastD "") with
            | none => testCases
            | some testCaseId =>
              match fetchTestCase b testCaseId with
              | none => testCases
              | some testCase => testCases ++ [testCase]
        else testCases)
      []

/-- `determineScenarioType`: concatenate title, description and tags, lower
case, then first-match-wins keyword groups. -/
def determineScenarioType (title description tags : String) : String :=
  let content := jsToLowerCase (title ++ " " ++ description ++ " " ++ tags)
  if ["api", "service", "endpoint"].any (fun k => jsIncludes content k) then "API"
  else if ["ui", "interface", "screen", "page"].any (fun k => jsIncludes content k) then "UI"
  else if ["integration", "end-to-end", "e2e"].any (fun k => jsIncludes content k) then
    "Integration"
  else if ["performance", "load", "stress"].any (fun k => jsIncludes content k) then
    "Performance"
  else if ["security", "authentication", "authorization"].any (fun k => jsIncludes content k) then
    "Security"
  else "Functional"

/-- The string-classification core of `mapPriority`, applied after the
stringify-and-lower-case step. -/
def mapPriorityStr (priorityStr : String) : String :=
  if ["1", "critical", "high"].contains priorityStr then "High"
  else if ["2", "medium", "normal"].contains priorityStr then "Medium"
  else if ["3", "4", "low"].contains priorityStr then "Low"
  else "Medium"

/-- `mapPriority`: `null`/`undefined` map to Medium; any other value is
stringified, lower-cased and classified, with Medium as the default. -/
def mapPriority (azurePriority : JSVal) : String :=
  match azurePriority with
  | JSVal.null => "Medium"
  | JSVal.undef => "Medium"
  | v => mapPriorityStr (jsToLowerCase (jsToString v))

/-- One row of the matrix.  `testCaseId = none` models the empty-string
test-case id of the source rows. -/
structure Row where
  userStoryId : Nat
  feature : String
  scenarioType : String
  description : String
  testCaseId : Option Nat
  status : String
  priority : String
  execution : String
deriving DecidableEq, Repr

/-- ES2015 `Map.prototype.set` on an insertion-ordered association list:
update the existing entry in place, else append at the end. -/
def jsMapSet (m : List (JSVal × List TestCase)) (k : JSVal) (v : List TestCase) :
    List (JSVal × List TestCase) :=
  match m with
  | [] => [(k, v)]
  | p :: rest => if p.1 == k then (k, v) :: rest else p :: jsMapSet rest k v

/-- ES2015 `Map.prototype.get` (with `SameValueZero` key equality, which on
the modelled values is structural equality of `JSVal`). -/
def jsMapGet (m : List (JSVal × List TestCase)) (k : JSVal) : Option (List TestCase) :=
  (m.find? (fun p => p.1 == k)).map Prod.snd

/-- The `testCasesMap` reduce of `generateRTM`: group the fetched test cases
by their raw acceptance-criterion reference value. -/
def testCasesMapBuild (allTestCases : List TestCase) : List (JSVal × List TestCase) :=
  allTestCases.foldl
    (fun acc testCase =>
      jsMapSet acc testCase.acceptanceCriteria
        ((jsMapGet acc testCase.acceptanceCriteria).getD [] ++ [testCase]))
    []

/-- Ordered insertion used to model `Object.entries` key ordering. -/
def insertByKey (p : Nat × String) : List (Nat × String) → List (Nat × String)
  | [] => [p]
  | q :: qs => if p.1 ≤ q.1 then p :: q :: qs else q :: insertByKey p qs

/-- `Object.entries` on an object whose own keys are array indices: the JS
specification returns such keys in ascending numeric order, whatever the
insertion order was. -/
def jsIntKeyEntries (m : List (Nat × String)) : List (Nat × String) :=
  m.foldr insertByKey []

/-- The rows `generateRTM` pushes for one acceptance-criterion entry of a
story that has at least one linked test case. -/
def rowsForCriterion (userStoryId : Nat) (storyTitle : String)
    (testCasesMap : List (JSVal × List TestCase)) (p : Nat × String) : List Row :=
  if ((jsMapGet testCasesMap (JSVal.num (p.1 : Int))).getD []).isEmpty then
    [{ userStoryId := userStoryId
       feature := storyTitle
       scenarioType := "Functional"
       description := p.2
       testCaseId := none
       status := "Missing"
       priority := "Medium"
       execution := "" }]
  else
    ((jsMapGet testCasesMap (JSVal.num (p.1 : Int))).getD []).map (fun testCase =>
      { userStoryId := userStoryId
        feature := storyTitle
        scenarioType := if testCase.scenarioType = "" then "Functional" else testCase.scenarioType
        description := if testCase.description = "" then testCase.title else testCase.description
        testCaseId := some testCase.id
        status := "Covered"
        priority := mapPriority testCase.priority
        execution := testCase.executionStatus })

/-- The rows one worker of `generateRTM` pushes for one user-story id:
fetch the story (skip on failure), fetch the linked test cases, and either
emit the single no-test-cases Missing row or reconcile the criteria. -/
def rowsForStory (b : Backend) (userStoryId : Nat) : List Row :=
  match fetchUserStory b userStoryId with
  | none => []
  | some userStory =>
    if (fetchRelatedTestCases b userStoryId).isEmpty then
      [{ userStoryId := userStoryId
         feature := userStory.feature
         scenarioType :=
           determineScenarioType userStory.title userStory.description userStory.tags
         description := userStory.title
         testCaseId := none
         status := "Missing"
         priority := mapPriority userStory.priority
         execution := "" }]
    else
      (jsIntKeyEntries userStory.acceptanceCriteria).foldl
        (fun rtmData p =>
          rtmData ++ rowsForCriterion userStoryId userStory.title
            (testCasesMapBuild (fetchRelatedTestCases b userStoryId)) p)
        []

/-- `generateRTM` on the canonical worker schedule: the `parallel` helper
hands every list element to the worker except the falsy ones (`if (item)`),
and for a number the only falsy value is `0`. -/
def generateRTM (b : Backend) (userStoryIds : List Nat) : List Row :=
  userStoryIds.foldl
    (fun rtmData userStoryId =>
      rtmData ++ (if userStoryId ≠ 0 then rowsForStory b userStoryId else []))
    []

/-- First-occurrence deduplication, the effect of `[...new Set(list)]`. -/
def jsSetDedup {α : Type} [BEq α] (l : List α) : List α :=
  l.foldl (fun acc x => if acc.contains x then acc else acc ++ [x]) []

/-- JS `Math.round` on the exact rational value: round half up. -/
def jsRound (q : ℚ) : ℤ := ⌊q + 1 / 2⌋

/-- The `total > 0 ? Math.round((covered / total) * 100) : 0` expression that
both output surfaces use. -/
def coveragePercentageOf (covered total : Nat) : ℤ :=
  if total > 0 then jsRound ((covered : ℚ) / (total : ℚ) * 100) else 0

/-- The overall block of the KPI statistics. -/
structure OverallKPI where
  totalModules : Nat
  totalUseCases : Nat
  positiveCount : Nat
  negativeCount : Nat
  edgeCasesCount : Nat
  integrationCount : Nat
  totalCovered : Nat
  coveragePercentage : ℤ
  passCount : Nat
  failCount : Nat
deriving DecidableEq, Repr

/-- One per-feature line of the KPI statistics. -/
structure ModuleKPI where
  feature : String
  totalUseCases : Nat
  positiveCovered : Nat
  negativeCovered : Nat
  edgeCasesCovered : Nat
  integrationCovered : Nat
  totalCovered : Nat
  coveragePercentage : ℤ
  pass : Nat
  fail : Nat
deriving DecidableEq, Repr

/-- Overall KPI values as `exportToExcel` computes them for the KPI sheet. -/
def excelOverallKPI (rtmData : List Row) : OverallKPI :=
  { totalModules := (jsSetDedup ((rtmData.map Row.feature).filter (fun f => f ≠ ""))).length
    totalUseCases := rtmData.length
    positiveCount := (rtmData.filter (fun r => r.scenarioType == "Positive")).length
    negativeCount := (rtmData.filter (fun r => r.scenarioType == "Negative")).length
    edgeCasesCount := (rtmData.filter (fun r => r.scenarioType == "Edge Case")).length
    integrationCount := (rtmData.filter (fun r => r.scenarioType == "Integration")).length
    totalCovered := (rtmData.filter (fun r => r.status == "Covered")).length
    coveragePercentage :=
      coveragePercentageOf (rtmData.filter (fun r => r.status == "Covered")).length
        rtmData.length
    passCount := (rtmData.filter (fun r => r.execution == "Pass")).length
    failCount := (rtmData.filter (fun r => r.execution == "Fail")).length }

/-- Overall KPI values as the `/rtm-download` route of `server.js` computes
them for the JSON body. -/
def serverOverallKPI (rtmData : List Row) : OverallKPI :=
  { totalModules := (jsSetDedup ((rtmData.map Row.feature).filter (fun f => f ≠ ""))).length
    totalUseCases := rtmData.length
    positiveCount := (rtmData.filter (fun r => r.scenarioType == "Positive")).length
    negativeCount := (rtmData.filter (fun r => r.scenarioType == "Negative")).length
    edgeCasesCount := (rtmData.filter (fun r => r.scenarioType == "Edge Case")).length
    integrationCount := (rtmData.filter (fun r => r.scenarioType == "Integration")).length
    totalCovered := (rtmData.filter (fun r => r.status == "Covered")).length
    coveragePercentage :=
      coveragePercentageOf (rtmData.filter (fun r => r.status == "Covered")).length
        rtmData.length
    passCount := (rtmData.filter (fun r => r.execution == "Pass")).length
    failCount := (rtmData.filter (fun r => r.execution == "Fail")).length }

/-- The per-feature KPI line for one feature, from the `uniqueFeatures`
loop of `exportToExcel`. -/
def excelModuleKPI (rtmData : List Row) (feature : String) : ModuleKPI :=
  let featureData := rtmData.filter (fun r => r.feature == feature)
  { feature := feature
    totalUseCases := featureData.length
    positiveCovered :=
      (featureData.filter (fun r => r.scenarioType == "Positive" && r.status == "Covered")).length
    negativeCovered :=
      (featureData.filter (fun r => r.scenarioType == "Negative" && r.status == "Covered")).length
    edgeCasesCovered :=
      (featureData.filter (fun r => r.scenarioType == "Edge Case" && r.status == "Covered")).length
    integrationCovered :=
      (featureData.filter
        (fun r => r.scenarioType == "Integration" && r.status == "Covered")).length
    totalCovered := (featureData.filter (fun r => r.status == "Covered")).length
    coveragePercentage :=
      coveragePercentageOf (featureData.filter (fun r => r.status == "Covered")).length
        featureData.length
    pass := (featureData.filter (fun r => r.execution == "Pass")).length
    fail := (featureData.filter (fun r => r.execution == "Fail")).length }

/-- The module-wise KPI table of the Excel KPI sheet. -/
def excelModuleWiseKPI (rtmData : List Row) : List ModuleKPI :=
  (jsSetDedup ((rtmData.map Row.feature).filter (fun f => f ≠ ""))).map
    (excelModuleKPI rtmData)

/-- The per-feature KPI line for one feature, from the `moduleWiseCoverage`
map of the `/rtm-download` route. -/
def serverModuleKPI (rtmData : List Row) (feature : String) : ModuleKPI :=
  let featureData := rtmData.filter (fun r => r.feature == feature)
  { feature := feature
    totalUseCases := featureData.length
    positiveCovered :=
      (featureData.filter (fun r => r.scenarioType == "Positive" && r.status == "Covered")).length
    negativeCovered :=
      (featureData.filter (fun r => r.scenarioType == "Negative" && r.status == "Covered")).length
    edgeCasesCovered :=
      (featureData.filter (fun r => r.scenarioType == "Edge Case" && r.status == "Covered")).length
    integrationCovered :=
      (featureData.filter
        (fun r => r.scenarioType == "Integration" && r.status == "Covered")).length
    totalCovered := (featureData.filter (fun r => r.status == "Covered")).length
    coveragePercentage :=
      coveragePercentageOf (featureData.filter (fun r => r.status == "Covered")).length
        featureData.length
    pass := (featureData.filter (fun r => r.execution == "Pass")).length
    fail := (featureData.filter (fun r => r.execution == "Fail")).length }

/-- The `moduleWiseCoverage` array of the `/rtm-download` JSON body. -/
def serverModuleWiseKPI (rtmData : List Row) : List ModuleKPI :=
  (jsSetDedup ((rtmData.map Row.feature).filter (fun f => f ≠ ""))).map
    (serverModuleKPI rtmData)

/-- JS truthiness of a generic `JSVal` element, as tested by the
`if (item)` guard inside `parallel`. -/
def jsTruthy (v : JSVal) : Bool := !jsFalsy v

/-- A snapshot of a run of `parallel list fn limit`: the next index the
shared iterator will hand out, the number of workers that have not yet
finished, and the `(item, index)` invocations of `fn` so far, in order. -/
structure PState (α : Type) where
  cursor : Nat
  active : Nat
  invocations : List (α × Nat)
deriving DecidableEq, Repr

/-- One scheduler step of `parallel`.  A running worker either atomically
pulls the next index and — when the element is truthy — invokes `fn` on it
(`consume`; the pull and the call are separated by no `await`), or observes
the exhausted iterator and finishes (`finish`).  Which worker moves is the
scheduler's choice and is irrelevant to this abstraction. -/
inductive PStep {α : Type} (list : List α) (truthy : α → Bool) :
    PState α → PState α → Prop
  | consume (c a : Nat) (inv : List (α × Nat)) (h : c < list.length) :
      PStep list truthy ⟨c, a + 1, inv⟩
        ⟨c + 1, a + 1,
          inv ++ (if truthy (list.get ⟨c, h⟩) then [(list.get ⟨c, h⟩, c)] else [])⟩
  | finish (c a : Nat) (inv : List (α × Nat)) (h : list.length ≤ c) :
      PStep list truthy ⟨c, a + 1, inv⟩ ⟨c, a, inv⟩

/-- The invocation list after the first `c` indices have been consumed. -/
def logTo {α : Type} (list : List α) (truthy : α → Bool) : Nat → List (α × Nat)
  | 0 => []
  | c + 1 =>
    logTo list truthy c ++
      (if h : c < list.length then
        (if truthy (list.get ⟨c, h⟩) then [(list.get ⟨c, h⟩, c)] else [])
      else [])

/-- The rows of the reconciliation loop as claim C1 words them: iterate the
acceptance criteria in ascending criterion-number order; a criterion with no
test cases grouped under its number yields one Missing row, and a criterion
with grouped test cases yields one Covered row per test case in fetched
order. -/
def claimC1Rows (userStoryId : Nat) (userStory : UserStory) (fetched : List TestCase) :
    List Row :=
  (jsIntKeyEntries userStory.acceptanceCriteria).flatMap (fun p =>
    if (fetched.filter (fun tc => tc.acceptanceCriteria == JSVal.num (p.1 : Int))).isEmpty then
      [{ userStoryId := userStoryId
         feature := userStory.title
         scenarioType := "Functional"
         description := p.2
         testCaseId := none
         status := "Missing"
         priority := "Medium"
         execution := "" }]
    else
      (fetched.filter (fun tc => tc.acceptanceCriteria == JSVal.num (p.1 : Int))).map
        (fun testCase =>
        { userStoryId := userStoryId
          feature := userStory.title
          scenarioType :=
            if testCase.scenarioType = "" then "Functional" else testCase.scenarioType
          description :=
            if testCase.description = "" then testCase.title else testCase.description
          testCaseId := some testCase.id
          status := "Covered"
          priority := mapPriority testCase.priority
          execution := testCase.executionStatus }))

/-- Pushing onto a shared accumulator inside a fold is concatenation of the
per-element contributions. -/
theorem foldl_append_eq_flatMap {α β : Type} (h : α → List β) (l : List α) :
    ∀ init : List β, l.foldl (fun acc x => acc ++ h x) init = init ++ l.flatMap h := by
  induction l with
  | nil => intro init; simp
  | cons x xs ih =>
    intro init
    simp only [List.foldl_cons, List.flatMap_cons, ih (init ++ h x), List.append_assoc]

/-- Reading a key back after a `Map.set`. -/
theorem jsMapGet_jsMapSet (m : List (JSVal × List TestCase)) (k : JSVal)
    (v : List TestCase) (q : JSVal) :
    jsMapGet (jsMapSet m k v) q = if q = k then some v else jsMapGet m q := by
  induction m with
  | nil =>
    by_cases hq : q = k
    · subst hq
      simp [jsMapSet, jsMapGet, List.find?]
    · have hkq : (k == q) = false := beq_eq_false_iff_ne.mpr (fun h => hq h.symm)
      simp [jsMapSet, jsMapGet, List.find?, hq, hkq]
  | cons p rest ih =>
    by_cases hpk : p.1 = k
    · have h1 : (p.1 == k) = true := beq_iff_eq.mpr hpk
      by_cases hq : q = k
      · subst hq
        simp [jsMapSet, jsMapGet, List.find?, h1]
      · have h2 : (k == q) = false := beq_eq_false_iff_ne.mpr (fun h => hq h.symm)
        have h3 : (p.1 == q) = false := by rw [hpk]; exact h2
        simp [jsMapSet, jsMapGet, List.find?, h1, h2, h3, hq]
    · have h1 : (p.1 == k) = false := beq_eq_false_iff_ne.mpr hpk
      by_cases hpq : p.1 = q
      · have h2 : (p.1 == q) = true := beq_iff_eq.mpr hpq
        have hqk : ¬ q = k := fun h => hpk (hpq.trans h)
        simp [jsMapSet, jsMapGet, List.find?, h1, h2, hqk]
      · have h2 : (p.1 == q) = false := beq_eq_false_iff_ne.mpr hpq
        simp only [jsMapSet, h1, Bool.false_eq_true, if_false]
        by_cases hq : q = k
        · subst hq
          simp only [jsMapGet, List.find?, h2] at ih ⊢
          simpa [if_pos rfl] using ih
        · simp only [jsMapGet, List.find?, h2] at ih ⊢
          simpa [if_neg hq] using ih

/-- The grouping map of `generateRTM`, read back at any key, is the ordered
filter of the fetched test cases whose reference value equals that key. -/
theorem testCasesMapBuild_get_aux (l : List TestCase) :
    ∀ (acc : List (JSVal × List TestCase)) (k : JSVal),
      (jsMapGet
          (l.foldl
            (fun acc testCase =>
              jsMapSet acc testCase.acceptanceCriteria
                ((jsMapGet acc testCase.acceptanceCriteria).getD [] ++ [testCase]))
            acc)
          k).getD []
        = (jsMapGet acc k).getD [] ++ l.filter (fun tc => tc.acceptanceCriteria == k) := by
  induction l with
  | nil => intro acc k; simp
  | cons tc l ih =>
    intro acc k
    simp only [List.foldl_cons]
    rw [ih]
    by_cases hk : k = tc.acceptanceCriteria
    · subst hk
      rw [jsMapGet_jsMapSet]
      simp [List.filter_cons]
    · rw [jsMapGet_jsMapSet]
      have : (tc.acceptanceCriteria == k) = false := by
        simp [show ¬ tc.acceptanceCriteria = k from fun h => hk h.symm]
      simp [hk, List.filter_cons, this]

/-- Reading the grouping map built by `generateRTM`. -/
theorem testCasesMapBuild_get (allTestCases : List TestCase) (k : JSVal) :
    (jsMapGet (testCasesMapBuild allTestCases) k).getD []
      = allTestCases.filter (fun tc => tc.acceptanceCriteria == k) := by
  have h := testCasesMapBuild_get_aux allTestCases [] k
  simpa [testCasesMapBuild, jsMapGet] using h

/-- The criterion entries contributed by one parsed `<li>` element. -/
def criterionEntry (p : Nat × String) : List (Nat × String) :=
  if jsTrim p.2 = "" then [] else [(p.1 + 1, jsTrim p.2)]

/-- `parseAcceptanceCriterias` as a flat map over the enumerated texts. -/
theorem parseAcceptanceCriterias_eq (liTexts : List String) :
    parseAcceptanceCriterias liTexts = liTexts.enum.flatMap criterionEntry := by
  unfold parseAcceptanceCriterias
  exact (foldl_append_eq_flatMap criterionEntry liTexts.enum []).trans
    (List.nil_append _)

/-- The criterion keys produced from texts enumerated from `n` are all above
`n` and strictly ascending. -/
theorem enumFrom_criterionKeys (liTexts : List String) :
    ∀ n : Nat,
      (∀ k ∈ (((List.enumFrom n liTexts).flatMap criterionEntry).map Prod.fst), n + 1 ≤ k) ∧
        List.Chain' (· < ·) (((List.enumFrom n liTexts).flatMap criterionEntry).map Prod.fst) := by
  induction liTexts with
  | nil => intro n; simp
  | cons t ts ih =>
    intro n
    have hcons : List.enumFrom n (t :: ts) = (n, t) :: List.enumFrom (n + 1) ts := rfl
    rw [hcons]
    by_cases h : jsTrim t = ""
    · have hentry : criterionEntry (n, t) = [] := by simp [criterionEntry, h]
      rw [List.flatMap_cons, hentry, List.nil_append]
      refine ⟨fun k hk => ?_, (ih (n + 1)).2⟩
      exact le_trans (Nat.le_succ _) ((ih (n + 1)).1 k hk)
    · have hentry : criterionEntry (n, t) = [(n + 1, jsTrim t)] := by simp [criterionEntry, h]
      rw [List.flatMap_cons, hentry]
      have hrest := ih (n + 1)
      constructor
      · intro k hk
        rcases List.mem_map.mp hk with ⟨e, he, hek⟩
        rcases List.mem_append.mp he with h1 | h2
        · rw [List.mem_singleton.mp h1] at hek
          exact hek ▸ le_refl _
        · exact le_trans (Nat.le_succ _) (hrest.1 k (hek ▸ List.mem_map_of_mem Prod.fst h2))
      · rw [List.map_append]
        have hmap : ([(n + 1, jsTrim t)].map Prod.fst) = [n + 1] := rfl
        rw [hmap, List.singleton_append]
        refine List.chain'_cons'.mpr ⟨fun b hb => ?_, hrest.2⟩
        have hbmem := List.mem_of_mem_head? hb
        have := hrest.1 b hbmem
        omega

/-- The keys `parseAcceptanceCriterias` assigns are strictly ascending. -/
theorem parseAcceptanceCriterias_chain (liTexts : List String) :
    List.Chain' (· < ·) ((parseAcceptanceCriterias liTexts).map Prod.fst) := by
  rw [parseAcceptanceCriterias_eq]
  have h := (enumFrom_criterionKeys liTexts 0).2
  simpa [List.enum] using h

/-- Sorting by key leaves a list with strictly ascending keys unchanged, so
`Object.entries` returns the parsed acceptance criteria in parse order. -/
theorem jsIntKeyEntries_of_chain (m : List (Nat × String))
    (hm : List.Chain' (· < ·) (m.map Prod.fst)) : jsIntKeyEntries m = m := by
  induction m with
  | nil => rfl
  | cons p rest ih =>
    have hm' := List.chain'_cons'.mp (by simpa using hm)
    have hrec : List.foldr insertByKey [] rest = rest := ih hm'.2
    show insertByKey p (List.foldr insertByKey [] rest) = p :: rest
    rw [hrec]
    cases rest with
    | nil => rfl
    | cons r rs =>
      have hpr : p.1 < r.1 := by
        apply hm'.1
        simp
      simp [insertByKey, Nat.le_of_lt hpr]

/-- `generateRTM` concatenates, in pull order, the per-story contribution of
every truthy id. -/
theorem generateRTM_eq (b : Backend) (userStoryIds : List Nat) :
    generateRTM b userStoryIds
      = userStoryIds.flatMap
          (fun userStoryId => if userStoryId ≠ 0 then rowsForStory b userStoryId else []) := by
  unfold generateRTM
  exact (foldl_append_eq_flatMap
      (fun userStoryId => if userStoryId ≠ 0 then rowsForStory b userStoryId else [])
      userStoryIds []).trans
    (List.nil_append _)

/-- In the branch with linked test cases, the per-story rows are the flat
map of the per-criterion rows over the ordered criterion entries. -/
theorem rowsForStory_of_testCases (b : Backend) (userStoryId : Nat) (us : UserStory)
    (hus : fetchUserStory b userStoryId = some us)
    (hne : fetchRelatedTestCases b userStoryId ≠ []) :
    rowsForStory b userStoryId
      = (jsIntKeyEntries us.acceptanceCriteria).flatMap
          (rowsForCriterion userStoryId us.title
            (testCasesMapBuild (fetchRelatedTestCases b userStoryId))) := by
  unfold rowsForStory
  rw [hus]
  have hempty : (fetchRelatedTestCases b userStoryId).isEmpty = false := by
    cases h : fetchRelatedTestCases b userStoryId with
    | nil => exact absurd h hne
    | cons x xs => rfl
  simp only [hempty, Bool.false_eq_true, if_false]
  exact (foldl_append_eq_flatMap
      (rowsForCriterion userStoryId us.title
        (testCasesMapBuild (fetchRelatedTestCases b userStoryId)))
      (jsIntKeyEntries us.acceptanceCriteria) []).trans
    (List.nil_append _)

/-- A user story built by `fetchUserStory` carries the parsed acceptance
criteria of the fetched work item. -/
theorem fetchUserStory_acceptanceCriteria (b : Backend) (userStoryId : Nat) (us : UserStory)
    (hus : fetchUserStory b userStoryId = some us) :
    ∃ w : WorkItem, us.acceptanceCriteria = parseAcceptanceCriterias w.acceptanceCriteriaHtml := by
  unfold fetchUserStory at hus
  split at hus
  · cases hus
  next w _ =>
    split at hus
    · cases hus
    · refine ⟨w, ?_⟩
      have h := Option.some.inj hus
      subst h
      rfl

/-- Every invocation recorded after consuming the first `c` indices carries
an index below `c`. -/
theorem logTo_index_lt {α : Type} (list : List α) (truthy : α → Bool) :
    ∀ (c : Nat) (e : α × Nat), e ∈ logTo list truthy c → e.2 < c := by
  intro c
  induction c with
  | zero => intro e he; cases he
  | succ c ih =>
    intro e he
    rw [logTo] at he
    rcases List.mem_append.mp he with h1 | h2
    · exact Nat.lt_succ_of_lt (ih e h1)
    · by_cases h : c < list.length
      · rw [dif_pos h] at h2
        by_cases ht : truthy (list.get ⟨c, h⟩) = true
        · rw [if_pos ht] at h2
          rw [List.mem_singleton.mp h2]
          exact Nat.lt_succ_self c
        · rw [if_neg ht] at h2
          cases h2
      · rw [dif_neg h] at h2
        cases h2

/-- After consuming `c` indices, index `i < c` appears in the invocation
list exactly once when its element is truthy and never otherwise. -/
theorem logTo_count {α : Type} (list : List α) (truthy : α → Bool) :
    ∀ (c i : Nat) (h : i < list.length), i < c →
      ((logTo list truthy c).filter (fun e => e.2 == i)).length
        = if truthy (list.get ⟨i, h⟩) then 1 else 0 := by
  intro c
  induction c with
  | zero => intro i h hic; omega
  | succ c ih =>
    intro i h hic
    rw [logTo, List.filter_append, List.length_append]
    by_cases hci : i < c
    · rw [ih i h hci]
      have htail :
          ((if hcl : c < list.length then
              (if truthy (list.get ⟨c, hcl⟩) then [(list.get ⟨c, hcl⟩, c)] else [])
            else []).filter (fun e => e.2 == i)).length = 0 := by
        by_cases hcl : c < list.length
        · rw [dif_pos hcl]
          by_cases ht : truthy (list.get ⟨c, hcl⟩) = true
          · rw [if_pos ht]
            have : (c == i) = false := beq_eq_false_iff_ne.mpr (by omega)
            simp [this]
          · rw [if_neg ht]; rfl
        · rw [dif_neg hcl]; rfl
      omega
    · have hi : i = c := by omega
      subst hi
      have hhead : ((logTo list truthy i).filter (fun e => e.2 == i)).length = 0 := by
        have : (logTo list truthy i).filter (fun e => e.2 == i) = [] := by
          apply List.filter_eq_nil_iff.mpr
          intro e he
          have := logTo_index_lt list truthy i e he
          simp only [beq_iff_eq]
          omega
        rw [this]; rfl
      rw [hhead]
      rw [dif_pos h]
      by_cases ht : truthy (list.get ⟨i, h⟩) = true
      · rw [if_pos ht, if_pos ht]
        simp
      · rw [if_neg ht, if_neg ht]
        rfl

/-- The reachability invariant of the `parallel` machine: the cursor never
overruns the list, the invocation list is determined by the cursor, and a
fully resolved run (with at least one worker) has consumed every index. -/
theorem pstate_invariant {α : Type} (list : List α) (truthy : α → Bool) (limit : Nat)
    (s : PState α)
    (hr : Relation.ReflTransGen (PStep list truthy) ⟨0, limit, []⟩ s) :
    s.cursor ≤ list.length ∧ s.invocations = logTo list truthy s.cursor
      ∧ (s.active = 0 → limit = 0 ∨ s.cursor = list.length) := by
  induction hr with
  | refl =>
    exact ⟨Nat.zero_le _, rfl, fun h => Or.inl h⟩
  | tail _ hstep ih =>
    cases hstep with
    | consume c a inv h =>
      refine ⟨h, ?_, fun hact => by cases hact⟩
      have hinv := ih.2.1
      show inv ++ _ = logTo list truthy (c + 1)
      rw [logTo, ← hinv, dif_pos h]
    | finish c a inv h =>
      refine ⟨ih.1, ih.2.1, fun _ => Or.inr ?_⟩
      exact Nat.le_antisymm ih.1 h

/-- Every value `mapPriorityStr` can return is one of the three labels. -/
theorem mapPriorityStr_range (s : String) :
    mapPriorityStr s = "Low" ∨ mapPriorityStr s = "Medium" ∨ mapPriorityStr s = "High" := by
  unfold mapPriorityStr
  split_ifs <;> decide

/-- C9: `mapPriority` is a total, deterministic function: every input —
numbers, strings, `null`, `undefined`, unrecognized strings — yields exactly
one of Low, Medium, High; `1`/`critical`/`high` map to High,
`2`/`medium`/`normal` to Medium, `3`/`4`/`low` to Low (after stringifying
and lower-casing, so `CRITICAL` also maps to High), and every missing or
unrecognized value to Medium. -/
theorem mapPriority_total_function :
    (∀ v : JSVal, mapPriority v = "Low" ∨ mapPriority v = "Medium" ∨ mapPriority v = "High") ∧
      (mapPriority (JSVal.num 1) = "High" ∧
        mapPriority (JSVal.str "critical") = "High" ∧
        mapPriority (JSVal.str "high") = "High" ∧
        mapPriority (JSVal.num 2) = "Medium" ∧
        mapPriority (JSVal.str "medium") = "Medium" ∧
        mapPriority (JSVal.str "normal") = "Medium" ∧
        mapPriority (JSVal.num 3) = "Low" ∧
        mapPriority (JSVal.num 4) = "Low" ∧
        mapPriority (JSVal.str "low") = "Low" ∧
        mapPriority JSVal.null = "Medium" ∧
        mapPriority JSVal.undef = "Medium" ∧
        mapPriority (JSVal.str "unexpected-string") = "Medium" ∧
        mapPriority (JSVal.str "CRITICAL") = "High") := by
  constructor
  · intro v
    cases v with
    | num n => exact mapPriorityStr_range _
    | str s => exact mapPriorityStr_range _
    | null => exact Or.inr (Or.inl rfl)
    | undef => exact Or.inr (Or.inl rfl)
  · decide

/-- C7: the JSON KPI surface of the `/rtm-download` route and the Excel KPI
sheet of `exportToExcel` compute the same coverage statistics from the same
matrix, field by field, both overall (totalModules, totalUseCases, the four
scenario-type counts, totalCovered, coveragePercentage, pass, fail) and in
the per-feature module-wise table. -/
theorem kpi_surfaces_agree (rtmData : List Row) :
    serverOverallKPI rtmData = excelOverallKPI rtmData ∧
      serverModuleWiseKPI rtmData = excelModuleWiseKPI rtmData :=
  ⟨rfl, rfl⟩

/-- Fixture: a Covered matrix row. -/
def rowCov : Row :=
  { userStoryId := 1
    feature := "F"
    scenarioType := "Positive"
    description := "d"
    testCaseId := some 9
    status := "Covered"
    priority := "High"
    execution := "Pass" }

/-- Fixture: a Missing matrix row. -/
def rowMiss : Row :=
  { userStoryId := 1
    feature := "F"
    scenarioType := "Functional"
    description := "d"
    testCaseId := none
    status := "Missing"
    priority := "Medium"
    execution := "" }

/-- Fixture: a ten-row matrix with seven Covered rows. -/
def matrixTen : List Row := List.replicate 7 rowCov ++ List.replicate 3 rowMiss

/-- C8: the coverage percentage of the Coverage Statistics Calculator equals
round(totalCovered / totalRows × 100) with totalCovered the number of rows
whose Status is Covered, it is 0 (with no division error) when the matrix is
empty, and a ten-row matrix with seven Covered rows yields 70. -/
theorem coveragePercentage_is_rounded_ratio :
    (∀ rtmData : List Row, rtmData.length ≠ 0 →
        (serverOverallKPI rtmData).coveragePercentage
          = round ((((rtmData.filter (fun r => r.status == "Covered")).length : ℚ)
              / (rtmData.length : ℚ)) * 100)) ∧
      (∀ rtmData : List Row, rtmData.length = 0 →
        (serverOverallKPI rtmData).coveragePercentage = 0) ∧
      (serverOverallKPI matrixTen).coveragePercentage = 70 := by
  refine ⟨?_, ?_, ?_⟩
  · intro rtmData hm
    show coveragePercentageOf ((rtmData.filter (fun r => r.status == "Covered")).length)
        rtmData.length
      = round ((((rtmData.filter (fun r => r.status == "Covered")).length : ℚ)
          / (rtmData.length : ℚ)) * 100)
    unfold coveragePercentageOf
    rw [if_pos (Nat.pos_of_ne_zero hm), round_eq]
    rfl
  · intro rtmData hm
    show coveragePercentageOf ((rtmData.filter (fun r => r.status == "Covered")).length)
        rtmData.length = 0
    unfold coveragePercentageOf
    rw [hm]
    rfl
  · have h7 : ((matrixTen.filter (fun r => r.status == "Covered")).length) = 7 := by decide
    have h10 : matrixTen.length = 10 := by decide
    show coveragePercentageOf ((matrixTen.filter (fun r => r.status == "Covered")).length)
        matrixTen.length = 70
    rw [h7, h10]
    unfold coveragePercentageOf jsRound
    norm_num

/-- C8 witness: the rounding identity instantiated at a one-row matrix. -/
theorem coveragePercentage_is_rounded_ratio_witness :
    (serverOverallKPI [rowCov]).coveragePercentage
      = round (((([rowCov].filter (fun r => r.status == "Covered")).length : ℚ)
          / (([rowCov] : List Row).length : ℚ)) * 100) :=
  coveragePercentage_is_rounded_ratio.1 [rowCov] (by decide)

/-- C6 (amended): `generateRTM` never propagates a failure: `makeApiRequest`
catches transport, auth and not-found errors alike and returns null, so even
a backend that fails every request at transport level yields a normal empty
matrix, and an id whose fetch fails merely contributes no rows. -/
theorem generateRTM_absorbs_all_failures :
    (∀ userStoryIds : List Nat,
        generateRTM (fun _ => Except.error ApiError.transport) userStoryIds = []) ∧
      (∀ (b : Backend) (userStoryId : Nat) (e : ApiError),
        b userStoryId = Except.error e → rowsForStory b userStoryId = []) := by
  have hrow : ∀ (b : Backend) (userStoryId : Nat) (e : ApiError),
      b userStoryId = Except.error e → rowsForStory b userStoryId = [] := by
    intro b userStoryId e hb
    unfold rowsForStory fetchUserStory makeApiRequest
    rw [hb]
  refine ⟨?_, hrow⟩
  intro userStoryIds
  rw [generateRTM_eq]
  induction userStoryIds with
  | nil => rfl
  | cons x xs ih =>
    rw [List.flatMap_cons, ih, hrow _ x ApiError.transport rfl]
    simp

/-- C6 witness: an id whose request fails with an auth error contributes no
rows instead of aborting. -/
theorem generateRTM_absorbs_all_failures_witness :
    rowsForStory (fun _ => Except.error ApiError.auth) 7 = [] :=
  generateRTM_absorbs_all_failures.2 (fun _ => Except.error ApiError.auth) 7 ApiError.auth rfl

/-- C6 counterexample: with a backend that cannot be reached at all (every
request fails at transport level), `generateRTM` resolves normally with an
empty matrix; no failure is propagated to the caller, contrary to the
claimed propagation of batch-level failures. -/
theorem generateRTM_no_batch_propagation :
    generateRTM (fun _ => Except.error ApiError.transport) [100] = [] := rfl

/-- C5 (amended): when a run of `parallel list fn limit` with a positive
limit resolves (all workers finished), `fn` has been invoked exactly once,
at its index, for each truthy element of the list, and never for a falsy
element; the invocation list is exactly `logTo` at the full length. -/
theorem parallel_invocations_on_resolution {α : Type} (list : List α)
    (truthy : α → Bool) (limit : Nat) (s : PState α) (hlim : 1 ≤ limit)
    (hr : Relation.ReflTransGen (PStep list truthy) ⟨0, limit, []⟩ s)
    (hdone : s.active = 0) :
    s.invocations = logTo list truthy list.length ∧
      ∀ (i : Nat) (h : i < list.length),
        ((s.invocations.filter (fun e => e.2 == i)).length
          = if truthy (list.get ⟨i, h⟩) then 1 else 0) := by
  obtain ⟨hc, hinv, hres⟩ := pstate_invariant list truthy limit s hr
  have hcur : s.cursor = list.length := by
    rcases hres hdone with h0 | hc2
    · omega
    · exact hc2
  refine ⟨by rw [hinv, hcur], ?_⟩
  intro i h
  rw [hinv, hcur]
  exact logTo_count list truthy list.length i h h

/-- C5 witness: a complete run on the one-element truthy list `[5]` with
limit 1 invokes the worker exactly once. -/
theorem parallel_invocations_on_resolution_witness :
    (⟨1, 0, [(JSVal.num 5, 0)]⟩ : PState JSVal).invocations
        = logTo [JSVal.num 5] jsTruthy ([JSVal.num 5] : List JSVal).length ∧
      ∀ (i : Nat) (h : i < ([JSVal.num 5] : List JSVal).length),
        ((((⟨1, 0, [(JSVal.num 5, 0)]⟩ : PState JSVal).invocations.filter
            (fun e => e.2 == i)).length)
          = if jsTruthy ([JSVal.num 5].get ⟨i, h⟩) then 1 else 0) :=
  parallel_invocations_on_resolution [JSVal.num 5] jsTruthy 1
    ⟨1, 0, [(JSVal.num 5, 0)]⟩ (by decide)
    (Relation.ReflTransGen.head (PStep.consume 0 0 [] (by decide))
      (Relation.ReflTransGen.head (PStep.finish 1 0 [(JSVal.num 5, 0)] (by decide))
        Relation.ReflTransGen.refl))
    rfl

/-- C5 counterexample: on the list `[0]` (a falsy element) a run of
`parallel` with the positive limit 1 resolves with an empty invocation list:
the worker function is never invoked for the element `0`, because the
`if (item)` guard skips falsy items. -/
theorem parallel_skips_falsy_items :
    Relation.ReflTransGen (PStep [JSVal.num 0] jsTruthy) ⟨0, 1, []⟩ ⟨1, 0, []⟩ ∧
      (⟨1, 0, []⟩ : PState JSVal).invocations.length = 0 :=
  ⟨Relation.ReflTransGen.head (PStep.consume 0 0 [] (by decide))
      (Relation.ReflTransGen.head (PStep.finish 1 0 [] (by decide))
        Relation.ReflTransGen.refl),
    rfl⟩

/-- C1: for a requirement with at least one linked test case, `generateRTM`
iterates the acceptance-criteria mapping in ascending criterion-number order
(the entry keys form a strictly ascending chain) and emits, per criterion,
either one Missing row (scenario type Functional, description the criterion
text, priority Medium, empty test-case id and execution) when no test cases
are grouped under its number, or one Covered row per grouped test case in
fetched order, with the scenario-type tag (Functional when absent), the
test-case description (title when empty), `mapPriority` of its raw priority,
and its derived execution outcome. -/
theorem generateRTM_criteria_reconciliation (b : Backend) (userStoryId : Nat)
    (us : UserStory) (h0 : userStoryId ≠ 0)
    (hus : fetchUserStory b userStoryId = some us)
    (hne : fetchRelatedTestCases b userStoryId ≠ []) :
    rowsForStory b userStoryId
        = claimC1Rows userStoryId us (fetchRelatedTestCases b userStoryId) ∧
      generateRTM b [userStoryId]
        = claimC1Rows userStoryId us (fetchRelatedTestCases b userStoryId) ∧
      List.Chain' (· < ·) ((jsIntKeyEntries us.acceptanceCriteria).map Prod.fst) := by
  have hmain : rowsForStory b userStoryId
      = claimC1Rows userStoryId us (fetchRelatedTestCases b userStoryId) := by
    rw [rowsForStory_of_testCases b userStoryId us hus hne, claimC1Rows]
    congr 1
    funext p
    simp only [rowsForCriterion, testCasesMapBuild_get]
  have hchain :
      List.Chain' (· < ·) ((jsIntKeyEntries us.acceptanceCriteria).map Prod.fst) := by
    obtain ⟨w, hw⟩ := fetchUserStory_acceptanceCriteria b userStoryId us hus
    rw [hw, jsIntKeyEntries_of_chain _ (parseAcceptanceCriterias_chain _)]
    exact parseAcceptanceCriterias_chain _
  refine ⟨hmain, ?_, hchain⟩
  rw [generateRTM_eq]
  simp only [List.flatMap_cons, List.flatMap_nil, List.append_nil]
  rw [if_pos h0]
  exact hmain

/-- Fixture: requirement 100 with two acceptance criteria and one linked
test case verifying criterion 1. -/
def storyItem100 : WorkItem :=
  { id := 100
    workItemType := "User Story"
    title := "Login story"
    description := ""
    state := "Active"
    priority := JSVal.num 2
    areaPath := "Proj\\Auth"
    tags := ""
    acceptanceCriteriaHtml := ["can log in", "can log out"]
    acNumberField := JSVal.undef
    scenarioTypeField := ""
    steps := ""
    relations := [{ rel := "Microsoft.VSTS.Common.TestedBy", url := "w/501" }] }

/-- Fixture: test case 501, done, high priority, verifying criterion 1. -/
def testItem501 : WorkItem :=
  { id := 501
    workItemType := "Test Case"
    title := "login works"
    description := "verify login"
    state := "Done"
    priority := JSVal.str "High"
    areaPath := ""
    tags := ""
    acceptanceCriteriaHtml := []
    acNumberField := JSVal.num 1
    scenarioTypeField := ""
    steps := ""
    relations := [] }

/-- Fixture backend serving requirement 100 and test case 501. -/
def backendA : Backend := fun id =>
  if id = 100 then Except.ok storyItem100
  else if id = 501 then Except.ok testItem501
  else Except.error ApiError.notFound

/-- Fixture: the user story `fetchUserStory backendA 100` produces. -/
def usA : UserStory :=
  { id := 100
    title := "Login story"
    description := ""
    state := "Active"
    priority := JSVal.num 2
    feature := "Login story"
    tags := ""
    acceptanceCriteria := [(1, "can log in"), (2, "can log out")] }

/-- C1 witness: the reconciliation identity at the concrete fixture. -/
theorem generateRTM_criteria_reconciliation_witness :
    rowsForStory backendA 100
        = claimC1Rows 100 usA (fetchRelatedTestCases backendA 100) ∧
      generateRTM backendA [100]
        = claimC1Rows 100 usA (fetchRelatedTestCases backendA 100) ∧
      List.Chain' (· < ·) ((jsIntKeyEntries usA.acceptanceCriteria).map Prod.fst) :=
  generateRTM_criteria_reconciliation backendA 100 usA (by decide) (by decide) (by decide)

/-- C2: every row of a generated matrix is Covered exactly when it carries a
test-case id, and a non-empty execution value only appears on Covered
rows. -/
theorem generateRTM_coverage_invariant (b : Backend) (userStoryIds : List Nat) (r : Row)
    (hr : r ∈ generateRTM b userStoryIds) :
    (r.status = "Covered" ↔ r.testCaseId.isSome = true) ∧
      (r.execution ≠ "" → r.status = "Covered") := by
  rw [generateRTM_eq] at hr
  rcases List.mem_flatMap.mp hr with ⟨userStoryId, _, hmem⟩
  by_cases h0 : userStoryId ≠ 0
  · rw [if_pos h0] at hmem
    unfold rowsForStory at hmem
    split at hmem
    · cases hmem
    next us _ =>
      split at hmem
      · rw [List.mem_singleton] at hmem
        subst hmem
        show ("Missing" = "Covered" ↔ (none : Option Nat).isSome = true) ∧
          ("" ≠ "" → "Missing" = "Covered")
        decide
      · rw [foldl_append_eq_flatMap
            (rowsForCriterion userStoryId us.title
              (testCasesMapBuild (fetchRelatedTestCases b userStoryId)))
            (jsIntKeyEntries us.acceptanceCriteria) [], List.nil_append] at hmem
        rcases List.mem_flatMap.mp hmem with ⟨p, _, hp⟩
        unfold rowsForCriterion at hp
        split at hp
        · rw [List.mem_singleton] at hp
          subst hp
          show ("Missing" = "Covered" ↔ (none : Option Nat).isSome = true) ∧
            ("" ≠ "" → "Missing" = "Covered")
          decide
        · rcases List.mem_map.mp hp with ⟨tc, _, htc⟩
          subst htc
          exact ⟨by simp, fun _ => rfl⟩
  · rw [if_neg h0] at hmem
    cases hmem

/-- Fixture: the Covered row that `generateRTM backendA [100]` emits for
criterion 1 via test case 501. -/
def rowA : Row :=
  { userStoryId := 100
    feature := "Login story"
    scenarioType := "Functional"
    description := "verify login"
    testCaseId := some 501
    status := "Covered"
    priority := "High"
    execution := "Pass" }

/-- C2 witness: the invariant at a concrete emitted row. -/
theorem generateRTM_coverage_invariant_witness :
    (rowA.status = "Covered" ↔ rowA.testCaseId.isSome = true) ∧
      (rowA.execution ≠ "" → rowA.status = "Covered") :=
  generateRTM_coverage_invariant backendA [100] rowA (by decide)

/-- C3: a successfully fetched requirement with zero linked test cases
produces exactly one row: Missing, classified from the requirement's own
title, description and tags, described by its title, prioritized by
`mapPriority` of its raw priority, with empty test-case id and execution. -/
theorem generateRTM_missing_requirement_row (b : Backend) (userStoryId : Nat)
    (us : UserStory) (h0 : userStoryId ≠ 0)
    (hus : fetchUserStory b userStoryId = some us)
    (hempty : fetchRelatedTestCases b userStoryId = []) :
    rowsForStory b userStoryId
        = [{ userStoryId := userStoryId
             feature := us.feature
             scenarioType := determineScenarioType us.title us.description us.tags
             description := us.title
             testCaseId := none
             status := "Missing"
             priority := mapPriority us.priority
             execution := "" }] ∧
      generateRTM b [userStoryId]
        = [{ userStoryId := userStoryId
             feature := us.feature
             scenarioType := determineScenarioType us.title us.description us.tags
             description := us.title
             testCaseId := none
             status := "Missing"
             priority := mapPriority us.priority
             execution := "" }] := by
  have h1 : rowsForStory b userStoryId
      = [{ userStoryId := userStoryId
           feature := us.feature
           scenarioType := determineScenarioType us.title us.description us.tags
           description := us.title
           testCaseId := none
           status := "Missing"
           priority := mapPriority us.priority
           execution := "" }] := by
    unfold rowsForStory
    rw [hus, hempty]
    rfl
  refine ⟨h1, ?_⟩
  rw [generateRTM_eq]
  simp only [List.flatMap_cons, List.flatMap_nil, List.append_nil]
  rw [if_pos h0]
  exact h1

/-- Fixture: requirement 200 "Export report", tagged performance, with no
linked test cases. -/
def storyItem200 : WorkItem :=
  { id := 200
    workItemType := "User Story"
    title := "Export report"
    description := ""
    state := ""
    priority := JSVal.undef
    areaPath := ""
    tags := "performance"
    acceptanceCriteriaHtml := []
    acNumberField := JSVal.undef
    scenarioTypeField := ""
    steps := ""
    relations := [] }

/-- Fixture backend serving only requirement 200. -/
def backendB : Backend := fun id =>
  if id = 200 then Except.ok storyItem200 else Except.error ApiError.notFound

/-- Fixture: the user story `fetchUserStory backendB 200` produces. -/
def usB : UserStory :=
  { id := 200
    title := "Export report"
    description := ""
    state := ""
    priority := JSVal.str "Medium"
    feature := "Export report"
    tags := "performance"
    acceptanceCriteria := [] }

/-- C3 witness: the single Missing row at the concrete fixture. -/
theorem generateRTM_missing_requirement_row_witness :
    rowsForStory backendB 200
        = [{ userStoryId := 200
             feature := usB.feature
             scenarioType := determineScenarioType usB.title usB.description usB.tags
             description := usB.title
             testCaseId := none
             status := "Missing"
             priority := mapPriority usB.priority
             execution := "" }] ∧
      generateRTM backendB [200]
        = [{ userStoryId := 200
             feature := usB.feature
             scenarioType := determineScenarioType usB.title usB.description usB.tags
             description := usB.title
             testCaseId := none
             status := "Missing"
             priority := mapPriority usB.priority
             execution := "" }] :=
  generateRTM_missing_requirement_row backendB 200 usB (by decide) (by decide) (by decide)

/-- C4 (amended): the feature label of a fetched requirement equals the
requirement's title, falling back to the last segment of the hierarchical
area path only when the title is empty (and to the empty string when both
are absent) — `feature: fields['System.Title'] || feature` puts the title
first, not the area path. -/
theorem fetchUserStory_feature_title_first (b : Backend) (userStoryId : Nat)
    (w : WorkItem) (us : UserStory) (hw : b userStoryId = Except.ok w)
    (hus : fetchUserStory b userStoryId = some us) :
    us.feature = (if w.title = "" then areaFeature w.areaPath else w.title) := by
  have hreq : makeApiRequest b userStoryId = some w := by
    unfold makeApiRequest
    rw [hw]
  unfold fetchUserStory at hus
  rw [hreq] at hus
  have hus' :
      (if w.workItemType ≠ "User Story" then none
        else some
          { id := w.id
            title := w.title
            description := w.description
            state := w.state
            priority := jsOr w.priority (JSVal.str "Medium")
            feature := if w.title = "" then areaFeature w.areaPath else w.title
            tags := w.tags
            acceptanceCriteria :=
              parseAcceptanceCriterias w.acceptanceCriteriaHtml } : Option UserStory)
        = some us := hus
  by_cases ht : w.workItemType ≠ "User Story"
  · rw [if_pos ht] at hus'
    cases hus'
  · rw [if_neg ht] at hus'
    have h := Option.some.inj hus'
    subst h
    rfl

/-- Fixture: a user story work item with a non-empty title and a three-level
area path. -/
def wFeature : WorkItem :=
  { id := 3
    workItemType := "User Story"
    title := "Login"
    description := ""
    state := ""
    priority := JSVal.undef
    areaPath := "Proj\\Area\\Auth"
    tags := ""
    acceptanceCriteriaHtml := []
    acNumberField := JSVal.undef
    scenarioTypeField := ""
    steps := ""
    relations := [] }

/-- Fixture: the user story fetched from `wFeature`. -/
def usFeature : UserStory :=
  { id := 3
    title := "Login"
    description := ""
    state := ""
    priority := JSVal.str "Medium"
    feature := "Login"
    tags := ""
    acceptanceCriteria := [] }

/-- C4 witness: the title-first feature rule at the concrete fixture. -/
theorem fetchUserStory_feature_title_first_witness :
    usFeature.feature
      = (if wFeature.title = "" then areaFeature wFeature.areaPath else wFeature.title) :=
  fetchUserStory_feature_title_first (fun _ => Except.ok wFeature) 3 wFeature usFeature
    rfl (by decide)

/-- C4 counterexample: for a requirement whose title is `Login` and whose
area path ends in `Auth`, the computed feature label is the title `Login`,
not the area path's last segment `Auth` as the claim states. -/
theorem fetchUserStory_feature_not_area_segment :
    (fetchUserStory (fun _ => Except.ok wFeature) 3).map UserStory.feature = some "Login" ∧
      areaFeature "Proj\\Area\\Auth" = "Auth" ∧ ("Login" : String) ≠ "Auth" :=
  ⟨by decide, by decide, by decide⟩

/-- Fixture: requirement 1 with one acceptance criterion and one linked test
case whose acceptance-criterion reference is the STRING `"1"`. -/
def storyItemStrRef : WorkItem :=
  { id := 1
    workItemType := "User Story"
    title := "Story"
    description := ""
    state := ""
    priority := JSVal.undef
    areaPath := ""
    tags := ""
    acceptanceCriteriaHtml := ["crit one"]
    acNumberField := JSVal.undef
    scenarioTypeField := ""
    steps := ""
    relations := [{ rel := "Microsoft.VSTS.Common.TestedBy", url := "w/501" }] }

/-- Fixture: test case 501 referencing its criterion by the string `"1"`. -/
def testItemStrRef : WorkItem :=
  { id := 501
    workItemType := "Test Case"
    title := "TC"
    description := ""
    state := "Done"
    priority := JSVal.undef
    areaPath := ""
    tags := ""
    acceptanceCriteriaHtml := []
    acNumberField := JSVal.str "1"
    scenarioTypeField := ""
    steps := ""
    relations := [] }

/-- Fixture backend for the string-reference scenario. -/
def backendStrRef : Backend := fun id =>
  if id = 1 then Except.ok storyItemStrRef
  else if id = 501 then Except.ok testItemStrRef
  else Except.error ApiError.notFound

/-- Fixture: the single Missing row emitted for the string-reference
scenario: criterion 1 is uncovered and test case 501 contributes no row. -/
def rowStrRef : Row :=
  { userStoryId := 1
    feature := "Story"
    scenarioType := "Functional"
    description := "crit one"
    testCaseId := none
    status := "Missing"
    priority := "Medium"
    execution := "" }

/-- Fixture: a test case whose acceptance-criterion reference is the
number 1. -/
def tcNumRef : TestCase :=
  { id := 77
    title := "t"
    description := ""
    state := "Done"
    priority := JSVal.str "Medium"
    executionStatus := "Pass"
    steps := ""
    acceptanceCriteria := JSVal.num 1
    scenarioType := "" }

/-- C10: the grouping map keys test cases by the raw acceptance-criterion
reference value while the lookup uses the number `Number(acNo)`, so a test
case is grouped under criterion `n` exactly when its reference is strictly
equal to the number `n`; in particular a grouped test case never carries a
string reference (so a reference like `"1"` or the absent `""` never pairs),
and in the concrete string-reference scenario the criterion emits a Missing
row while the test case contributes no row at all. -/
theorem testCase_pairing_requires_strict_equality :
    (∀ (allTestCases : List TestCase) (n : Int),
        (jsMapGet (testCasesMapBuild allTestCases) (JSVal.num n)).getD []
          = allTestCases.filter (fun tc => tc.acceptanceCriteria == JSVal.num n)) ∧
      (∀ (allTestCases : List TestCase) (tc : TestCase) (n : Int) (s : String),
        tc ∈ (jsMapGet (testCasesMapBuild allTestCases) (JSVal.num n)).getD [] →
          tc.acceptanceCriteria ≠ JSVal.str s) ∧
      rowsForStory backendStrRef 1 = [rowStrRef] := by
  refine ⟨fun allTestCases n => testCasesMapBuild_get allTestCases (JSVal.num n),
    fun allTestCases tc n s hmem => ?_, by decide⟩
  rw [testCasesMapBuild_get] at hmem
  have h := (List.mem_filter.mp hmem).2
  have hnum : tc.acceptanceCriteria = JSVal.num n := by simpa using h
  rw [hnum]
  intro hcontra
  cases hcontra

/-- C10 witness: a numeric reference pairs, and a paired test case indeed
has no string reference. -/
theorem testCase_pairing_requires_strict_equality_witness :
    tcNumRef.acceptanceCriteria ≠ JSVal.str "1" :=
  testCase_pairing_requires_strict_equality.2.1 [tcNumRef] tcNumRef 1 "1" (by decide)
